import Mathlib

/-!
Shallow embedding of `src/app.py`, a Flask webhook for Telegram that forwards
user messages to Gemini and stores per-user conversation history in SQLite.

The SQLite `messages` table is modelled as a list of rows kept in rowid
(insertion) order together with the next AUTOINCREMENT id.  `int(time.time())`
timestamps are passed in explicitly as `Nat` arguments.  `ORDER BY created_at
ASC` is modelled as a stable sort (by `created_at`) of the rows in rowid order.
The Gemini API and the Telegram send endpoint are external effects: the API is
a function parameter, and outbound sends and model invocations are collected in
the handler's result for inspection.
-/

namespace RsmkChatbot

/-- Configuration default of `SYSTEM_PROMPT` (env var default in `app.py`). -/
def SYSTEM_PROMPT : String :=
  "You are a friendly, professional and empathetic assistant that replies " ++
  "like a human. Keep answers concise, helpful, and polite. Use natural language."

/-- Configuration default of `MAX_HISTORY_MESSAGES` (env var default "12"). -/
def MAX_HISTORY_MESSAGES : Nat := 12

/-- One row of the `messages` table:
`id INTEGER PRIMARY KEY AUTOINCREMENT, user_id, role, text, created_at`. -/
structure Row where
  id : Nat
  user_id : Int
  role : String
  text : String
  created_at : Nat
deriving Repr, DecidableEq

/-- The SQLite database: the `messages` rows in rowid (insertion) order,
plus the next AUTOINCREMENT id. -/
structure DB where
  rows : List Row
  nextId : Nat
deriving Repr, DecidableEq

/-- Fresh database produced by `init_db()`: empty `messages` table,
AUTOINCREMENT starting at 1. -/
def init_db : DB := ⟨[], 1⟩

/-- Embeds `add_message(user_id, role, text)`: one INSERT of a row with the
current timestamp (`now` stands for `int(time.time())`). -/
def add_message (db : DB) (user_id : Int) (role text : String) (now : Nat) : DB :=
  ⟨db.rows ++ [⟨db.nextId, user_id, role, text, now⟩], db.nextId + 1⟩

/-- Stable insertion of a row into a list already sorted by `created_at`:
the row goes after every element with a strictly smaller key and before the
first element whose key is `≥` its own, so equal keys keep their scan order. -/
def insertRow (r : Row) : List Row → List Row
  | [] => [r]
  | x :: xs => if x.created_at < r.created_at then x :: insertRow r xs else r :: x :: xs

/-- Stable sort by `created_at` ascending of rows listed in rowid order;
the model of `ORDER BY created_at ASC` over the scanned rows. -/
def sortByCreated : List Row → List Row
  | [] => []
  | x :: xs => insertRow x (sortByCreated xs)

/-- Embeds `get_history(user_id, limit)`:
`SELECT role, text FROM messages WHERE user_id = ? ORDER BY created_at ASC
LIMIT ?`, returning `(role, text)` pairs.  Note the query keeps the FIRST
`limit` rows of the ascending order. -/
def get_history (db : DB) (user_id : Int) (limit : Nat) : List (String × String) :=
  ((sortByCreated (db.rows.filter (fun r => r.user_id == user_id))).take limit).map
    (fun r => (r.role, r.text))

/-- Embeds `clear_history(user_id)`: `DELETE FROM messages WHERE user_id = ?`. -/
def clear_history (db : DB) (user_id : Int) : DB :=
  ⟨db.rows.filter (fun r => !(r.user_id == user_id)), db.nextId⟩

/-- One entry of the list built for `model.start_chat(history=...)`:
a dict `\x7b"role": ..., "content": ...\x7d`. -/
structure HMsg where
  role : String
  content : String
deriving Repr, DecidableEq

/-- Embeds `build_history_for_gemini(user_id)`: one system entry holding
`SYSTEM_PROMPT`, then each stored `(role, text)` pair of
`get_history(user_id, MAX_HISTORY_MESSAGES)` as a `\x7brole, content\x7d` entry. -/
def build_history_for_gemini (db : DB) (user_id : Int) : List HMsg :=
  ⟨"system", SYSTEM_PROMPT⟩ ::
    (get_history db user_id MAX_HISTORY_MESSAGES).map (fun rt => ⟨rt.1, rt.2⟩)

/-- Outcome of the Gemini round trip
`model.start_chat(history=...).send_message(user_text)` inside the `try` block:
either a response whose optional `.text` attribute and `str()` rendering are
given, or an exception raised anywhere in the block. -/
inductive ApiResult where
  | ok (textAttr : Option String) (stringified : String)
  | error
deriving Repr, DecidableEq

/-- The external Gemini API as a function of the chat history and the new
user message. -/
abbrev GeminiApi := List HMsg → String → ApiResult

/-- Fixed apology string returned by `ask_gemini` when the API call raises
(the source file carries mojibake bytes U+00E2 U+20AC U+201D for the dash). -/
def GEMINI_ERROR_REPLY : String :=
  "Sorry â€” I\x27m having trouble talking to my brain (API). Please try again shortly."

/-- Python `str.strip()`: drop whitespace from both ends of the string,
modelled over the character list so that it evaluates by plain reduction. -/
def pyStrip (s : String) : String :=
  ⟨((s.data.dropWhile Char.isWhitespace).reverse.dropWhile Char.isWhitespace).reverse⟩

/-- Python `str.startswith(pre)`, modelled over the character lists. -/
def pyStartsWith (s pre : String) : Bool :=
  pre.data.isPrefixOf s.data

/-- Reply extraction of `ask_gemini`: on success take `.text` when present,
else `str(response)`, then `.strip()`; on any exception return the fixed
apology string. -/
def extractReply : ApiResult → String
  | .ok (some t) _ => pyStrip t
  | .ok none s => pyStrip s
  | .error => GEMINI_ERROR_REPLY

/-- Embeds `ask_gemini(user_id, user_text)`: rebuild the chat history from the
store, send `user_text`, and extract the reply (or the apology on failure). -/
def ask_gemini (api : GeminiApi) (db : DB) (user_id : Int) (user_text : String) : String :=
  extractReply (api (build_history_for_gemini db user_id) user_text)

/-- A database holding 15 turns for user 1, texts `m0 … m14`, inserted with
strictly increasing timestamps `0 … 14`. -/
def db15 : DB :=
  (List.range 15).foldl (fun db i => add_message db 1 "user" ("m" ++ toString i) i) init_db

/-- C1: the History Store read operation returns up to `limit` of the MOST
RECENT turns.  Evaluating `get_history` on 15 stored turns with limit 12 shows
the code instead returns the 12 OLDEST turns (`ORDER BY created_at ASC LIMIT`
truncates the ascending order at the front), and that result differs from the
12 most recent turns the claim requires. -/
theorem C1_get_history_takes_oldest :
    get_history db15 1 12 = (List.range 12).map (fun i => ("user", "m" ++ toString i)) ∧
    get_history db15 1 12 ≠ (List.range 12).map (fun i => ("user", "m" ++ toString (i + 3))) := by
  constructor
  · rfl
  · decide

/-- A Telegram message object as the handler reads it.  `chat.id` and
`from.id` are modelled as present (Telegram message objects carry both).
`text` distinguishes the three JSON shapes `message.get("text", "")`
discriminates: key absent (`none`), key explicitly `null` (`some none`), and a
string value (`some (some s)`).  `message_id` may be absent. -/
structure MessageObj where
  chat_id : Int
  from_id : Int
  text : Option (Option String)
  message_id : Option Int
deriving Repr, DecidableEq

/-- Value of `message.get("text", "")`: the absent key defaults to `""`; an
explicit `null` yields Python `None`; a string is passed through. -/
def msgText (m : MessageObj) : Option String :=
  match m.text with
  | none => some ""
  | some none => none
  | some (some s) => some s

/-- Value of the `reply_to_message_id` field of the outbound payload: the
handler adds it only when `message_id` is truthy (present and nonzero). -/
def replyTo (m : MessageObj) : Option Int :=
  match m.message_id with
  | none => none
  | some i => if i == 0 then none else some i

/-- The parsed update dict.  `message` / `edited_message` hold the message
object when the key is present with a truthy (non-null, non-empty) dict value;
`otherKeysPresent` records whether the dict has any further key, which decides
its Python truthiness. -/
structure Update where
  message : Option MessageObj
  edited_message : Option MessageObj
  otherKeysPresent : Bool
deriving Repr, DecidableEq

/-- Python truthiness of the update dict: non-empty. -/
def Update.truthy (u : Update) : Bool :=
  u.message.isSome || u.edited_message.isSome || u.otherKeysPresent

/-- Result of `request.get_json()` on a body that parses: JSON `null` gives
Python `None`, an object gives an update dict. -/
inductive ParsedBody where
  | nullBody
  | obj (u : Update)
deriving Repr, DecidableEq

/-- An inbound webhook request: whether the `content-type` header equals
`application/json` exactly, and the parsed JSON body. -/
structure WebhookRequest where
  contentTypeJson : Bool
  body : ParsedBody
deriving Repr, DecidableEq

/-- The HTTP response of the handler: status code and, for the `jsonify`
responses, the `ok` flag of the JSON body (`none` for the bare `abort(400)`). -/
structure Response where
  status : Nat
  ok : Option Bool
deriving Repr, DecidableEq

/-- One outbound `send_telegram_message` call: target chat, text, and the
optional `reply_to_message_id`. -/
structure SentMsg where
  chat_id : Int
  text : String
  reply_to : Option Int
deriving Repr, DecidableEq

/-- One Gemini invocation: the history handed to `start_chat` and the new
user text handed to `send_message`. -/
structure ModelCall where
  history : List HMsg
  user_text : String
deriving Repr, DecidableEq

/-- Result of one webhook request: the database afterwards, the HTTP
response, the outbound Telegram sends, and the model invocations, each in
call order. -/
structure WebhookResult where
  db : DB
  response : Response
  sent : List SentMsg
  modelCalls : List ModelCall
deriving Repr, DecidableEq

/-- Fixed notice sent for messages whose `text` is `None`. -/
def TEXT_ONLY_NOTICE : String := "I only understand text for now."

/-- Confirmation sent by the `/reset` branch. -/
def RESET_CONFIRMATION : String := "Conversation history cleared. Let\x27s start fresh!"

/-- Static text sent by the `/help` branch. -/
def HELP_TEXT : String :=
  "I am an AI chat bot. Just type anything and I\x27ll reply like a human.\n\n" ++
  "Commands:\n" ++
  "/help - show this message\n" ++
  "/reset - clear our conversation history\n"

/-- Embeds the `/webhook` POST handler.  `t1` and `t2` stand for the
`int(time.time())` values of the two `add_message` calls.  Branches in source
order: non-JSON content type aborts 400; a falsy parsed body returns 400
`ok=false`; an update without a truthy `message` / `edited_message` returns
200 `ok=true`; `text is None` sends the text-only notice; `/reset` and `/help`
short-circuit; otherwise the user turn is stored, Gemini is asked, the reply
is stored and sent. -/
def webhook (api : GeminiApi) (t1 t2 : Nat) (db : DB) (req : WebhookRequest) :
    WebhookResult :=
  if !req.contentTypeJson then
    ⟨db, ⟨400, none⟩, [], []⟩
  else
    match req.body with
    | .nullBody => ⟨db, ⟨400, some false⟩, [], []⟩
    | .obj u =>
      if !u.truthy then
        ⟨db, ⟨400, some false⟩, [], []⟩
      else
        match u.message.or u.edited_message with
        | none => ⟨db, ⟨200, some true⟩, [], []⟩
        | some m =>
          match msgText m with
          | none =>
            ⟨db, ⟨200, some true⟩, [⟨m.chat_id, TEXT_ONLY_NOTICE, none⟩], []⟩
          | some t0 =>
            let text := pyStrip t0
            if pyStartsWith text "/reset" then
              ⟨clear_history db m.from_id, ⟨200, some true⟩,
                [⟨m.chat_id, RESET_CONFIRMATION, replyTo m⟩], []⟩
            else if pyStartsWith text "/help" then
              ⟨db, ⟨200, some true⟩, [⟨m.chat_id, HELP_TEXT, replyTo m⟩], []⟩
            else
              let db1 := add_message db m.from_id "user" text t1
              let reply := ask_gemini api db1 m.from_id text
              let db2 := add_message db1 m.from_id "assistant" reply t2
              ⟨db2, ⟨200, some true⟩, [⟨m.chat_id, reply, replyTo m⟩],
                [⟨build_history_for_gemini db1 m.from_id, text⟩]⟩

/-- Request wrapping a single `message` update with JSON content type. -/
def mkReq (m : MessageObj) : WebhookRequest := ⟨true, .obj ⟨some m, none, false⟩⟩

/-- A Gemini API stub that answers every call with a response whose `.text`
attribute is `"ok"`. -/
def apiOk : GeminiApi := fun _ _ => ApiResult.ok (some "ok") "resp"

/-- Python truthiness of the value `request.get_json()` returned: JSON `null`
and the empty object are falsy. -/
def bodyFalsy : ParsedBody → Bool
  | .nullBody => true
  | .obj u => !u.truthy

/-- Message of user 42 in chat 100 with text `"hello"`. -/
def msg42 : MessageObj := ⟨100, 42, some (some "hello"), some 1⟩

/-- C2 counterexample: on an empty store, user 42 sending `"hello"` leads to a
model call whose history is `[system, (user, "hello")]` — the handler appends
the user turn to the store BEFORE `ask_gemini` rebuilds the history — so the
conversation built for the model call is not `[system]` as claimed. -/
theorem C2_counterexample :
    (webhook apiOk 3 4 init_db (mkReq msg42)).modelCalls =
      [⟨[⟨"system", SYSTEM_PROMPT⟩, ⟨"user", "hello"⟩], "hello"⟩] ∧
    ([⟨"system", SYSTEM_PROMPT⟩, ⟨"user", "hello"⟩] : List HMsg) ≠
      [⟨"system", SYSTEM_PROMPT⟩] := by
  exact ⟨rfl, by decide⟩

/-- C2 as amended: user 42 with empty history sending `"hello"` produces one
model call whose history is `[system, (user, "hello")]` (the fresh user turn
is persisted first and replayed), with `"hello"` as the appended new
utterance; afterwards the stored turns for user 42 are
`[(user, "hello"), (assistant, reply)]` where `reply` is whatever the API
exchange yields, and the reply is delivered to chat 100. -/
theorem C2_amended (api : GeminiApi) (t1 t2 : Nat) :
    (webhook api t1 t2 init_db (mkReq msg42)).modelCalls =
      [⟨[⟨"system", SYSTEM_PROMPT⟩, ⟨"user", "hello"⟩], "hello"⟩] ∧
    (webhook api t1 t2 init_db (mkReq msg42)).db.rows.map
        (fun row => (row.user_id, row.role, row.text)) =
      [(42, "user", "hello"),
       (42, "assistant",
         extractReply (api [⟨"system", SYSTEM_PROMPT⟩, ⟨"user", "hello"⟩] "hello"))] ∧
    (webhook api t1 t2 init_db (mkReq msg42)).sent =
      [⟨100, extractReply (api [⟨"system", SYSTEM_PROMPT⟩, ⟨"user", "hello"⟩] "hello"),
        some 1⟩] ∧
    (webhook api t1 t2 init_db (mkReq msg42)).response = ⟨200, some true⟩ := by
  exact ⟨rfl, rfl, rfl, rfl⟩

/-- A Telegram message carrying no `text` key at all (for instance a photo
message), in chat 1 from user 7. -/
def msgPhoto : MessageObj := ⟨1, 7, none, some 5⟩

/-- C3: a non-text inbound message must produce no turn write and no model
call, only the fixed notice.  Evaluating the handler on a message without a
`text` key shows the opposite: `message.get("text", "")` defaults the missing
key to `""`, so the handler stores a user turn with empty text, calls the
model, stores the reply, and never sends the text-only notice. -/
theorem C3_no_text_key_reaches_model :
    (webhook apiOk 0 0 init_db (mkReq msgPhoto)).modelCalls =
      [⟨[⟨"system", SYSTEM_PROMPT⟩, ⟨"user", ""⟩], ""⟩] ∧
    (webhook apiOk 0 0 init_db (mkReq msgPhoto)).db.rows.map
        (fun row => (row.user_id, row.role, row.text)) =
      [(7, "user", ""), (7, "assistant", "ok")] ∧
    (webhook apiOk 0 0 init_db (mkReq msgPhoto)).sent ≠
      [⟨1, TEXT_ONLY_NOTICE, none⟩] := by
  exact ⟨rfl, rfl, by decide⟩

/-- Request whose body is the empty JSON object. -/
def reqEmptyObj : WebhookRequest := ⟨true, .obj ⟨none, none, false⟩⟩

/-- C4 counterexample: the empty JSON object is a well-formed JSON payload
lacking `message` / `edited_message`, delivered with a well-formed content
type, yet the handler answers 400 (`if not update` treats the falsy dict as
missing JSON), not the claimed 200. -/
theorem C4_counterexample :
    reqEmptyObj.contentTypeJson = true ∧
    (webhook apiOk 0 0 init_db reqEmptyObj).response = ⟨400, some false⟩ ∧
    (webhook apiOk 0 0 init_db reqEmptyObj).response.status ≠ 200 := by
  exact ⟨rfl, rfl, by decide⟩

/-- C4 as amended: the response status is 200 unless the content type is not
`application/json` (bare 400) or the parsed JSON body is falsy — `null` or an
empty object — (400 with `ok=false`); every truthy-body path, including a
payload lacking `message` / `edited_message`, ends in 200 `ok=true`. -/
theorem C4_amended (api : GeminiApi) (t1 t2 : Nat) (db : DB) (req : WebhookRequest) :
    (req.contentTypeJson = false → (webhook api t1 t2 db req).response = ⟨400, none⟩) ∧
    (req.contentTypeJson = true → bodyFalsy req.body = true →
      (webhook api t1 t2 db req).response = ⟨400, some false⟩) ∧
    (req.contentTypeJson = true → bodyFalsy req.body = false →
      (webhook api t1 t2 db req).response = ⟨200, some true⟩) := by
  obtain ⟨ct, body⟩ := req
  refine ⟨?_, ?_, ?_⟩
  · intro h1
    subst h1
    rfl
  · intro h1 h2
    subst h1
    cases body with
    | nullBody => rfl
    | obj u =>
      simp only [bodyFalsy] at h2
      simp [webhook, h2]
  · intro h1 h2
    subst h1
    cases body with
    | nullBody => simp [bodyFalsy] at h2
    | obj u =>
      simp only [bodyFalsy] at h2
      simp only [webhook, Bool.not_true, Bool.false_eq_true, if_false, h2]
      split
      · rfl
      · split
        · rfl
        · split
          · rfl
          · split
            · rfl
            · rfl

/-- Witness for C4 as amended at concrete requests: a non-empty payload
without `message` gets 200 `ok=true`; a non-JSON content type gets a bare
400; the empty object gets 400 `ok=false`. -/
theorem C4_amended_witness :
    (webhook apiOk 0 0 init_db ⟨true, .obj ⟨none, none, true⟩⟩).response = ⟨200, some true⟩ ∧
    (webhook apiOk 0 0 init_db ⟨false, .obj ⟨none, none, true⟩⟩).response = ⟨400, none⟩ ∧
    (webhook apiOk 0 0 init_db ⟨true, .nullBody⟩).response = ⟨400, some false⟩ := by
  refine ⟨(C4_amended apiOk 0 0 init_db ⟨true, .obj ⟨none, none, true⟩⟩).2.2 rfl rfl,
    (C4_amended apiOk 0 0 init_db ⟨false, .obj ⟨none, none, true⟩⟩).1 rfl,
    (C4_amended apiOk 0 0 init_db ⟨true, .nullBody⟩).2.1 rfl rfl⟩

/-- C5: when every API call raises, `ask_gemini` swallows the exception and
returns the fixed apology string, and the handler still stores an
assistant-role turn carrying that apology and delivers it to the chat with
HTTP 200. -/
theorem C5_api_error_degrades (api : GeminiApi) (t1 t2 : Nat) (db : DB) (m : MessageObj)
    (s : String) (hErr : ∀ h u, api h u = ApiResult.error)
    (hText : msgText m = some s)
    (hReset : pyStartsWith (pyStrip s) "/reset" = false)
    (hHelp : pyStartsWith (pyStrip s) "/help" = false) :
    ask_gemini api (add_message db m.from_id "user" (pyStrip s) t1) m.from_id (pyStrip s) =
      GEMINI_ERROR_REPLY ∧
    (webhook api t1 t2 db (mkReq m)).db =
      add_message (add_message db m.from_id "user" (pyStrip s) t1) m.from_id "assistant"
        GEMINI_ERROR_REPLY t2 ∧
    (webhook api t1 t2 db (mkReq m)).sent =
      [⟨m.chat_id, GEMINI_ERROR_REPLY, replyTo m⟩] ∧
    (webhook api t1 t2 db (mkReq m)).response = ⟨200, some true⟩ := by
  have hask : ∀ d u, ask_gemini api d u (pyStrip s) = GEMINI_ERROR_REPLY := by
    intro d u
    simp [ask_gemini, hErr, extractReply]
  refine ⟨hask _ _, ?_, ?_, ?_⟩ <;>
    simp [webhook, mkReq, Update.truthy, Option.or, hText, hReset, hHelp, hask]

/-- Witness for C5 at a concrete exchange: user 7 sends `"hi"` in chat 2
while the API always raises. -/
theorem C5_witness :
    ask_gemini (fun _ _ => ApiResult.error) (add_message init_db 7 "user" "hi" 0) 7 "hi" =
      GEMINI_ERROR_REPLY ∧
    (webhook (fun _ _ => ApiResult.error) 0 1 init_db
        (mkReq ⟨2, 7, some (some "hi"), none⟩)).db =
      add_message (add_message init_db 7 "user" "hi" 0) 7 "assistant" GEMINI_ERROR_REPLY 1 ∧
    (webhook (fun _ _ => ApiResult.error) 0 1 init_db
        (mkReq ⟨2, 7, some (some "hi"), none⟩)).sent =
      [⟨2, GEMINI_ERROR_REPLY, none⟩] ∧
    (webhook (fun _ _ => ApiResult.error) 0 1 init_db
        (mkReq ⟨2, 7, some (some "hi"), none⟩)).response = ⟨200, some true⟩ :=
  C5_api_error_degrades (fun _ _ => ApiResult.error) 0 1 init_db
    ⟨2, 7, some (some "hi"), none⟩ "hi" (fun _ _ => rfl) rfl rfl rfl

/-- A store where user 5 already has one turn `(user, "old")`. -/
def dbC6 : DB := add_message init_db 5 "user" "old" 0

/-- C6: after appending `(user, t1)` then `(assistant, t2)` for user `u`,
`read(u, 2)` must return exactly those two turns.  Evaluating on a store where
user 5 already holds one earlier turn shows the code instead returns the two
OLDEST rows (`ORDER BY created_at ASC LIMIT 2`), namely the pre-existing turn
and the first new one. -/
theorem C6_prior_turn_breaks_read :
    get_history (add_message (add_message dbC6 5 "user" "hi" 1) 5 "assistant" "yo" 2) 5 2 =
      [("user", "old"), ("user", "hi")] ∧
    ([("user", "old"), ("user", "hi")] : List (String × String)) ≠
      [("user", "hi"), ("assistant", "yo")] := by
  exact ⟨rfl, by decide⟩

/-- C7: the conversation builder returns exactly one system entry holding the
configured instruction text, followed verbatim, role-for-role, by
`read(user_id, MAX_HISTORY_MESSAGES)`, so the result never exceeds
`MAX_HISTORY_MESSAGES + 1` entries, whatever the store holds. -/
theorem C7_build_history_shape (db : DB) (u : Int) :
    build_history_for_gemini db u =
      ⟨"system", SYSTEM_PROMPT⟩ ::
        (get_history db u MAX_HISTORY_MESSAGES).map (fun rt => ⟨rt.1, rt.2⟩) ∧
    (build_history_for_gemini db u).head? = some ⟨"system", SYSTEM_PROMPT⟩ ∧
    (build_history_for_gemini db u).length ≤ MAX_HISTORY_MESSAGES + 1 := by
  refine ⟨rfl, rfl, ?_⟩
  have h : (get_history db u MAX_HISTORY_MESSAGES).length ≤ MAX_HISTORY_MESSAGES := by
    simp only [get_history, List.length_map, List.length_take]
    exact min_le_left _ _
  simp only [build_history_for_gemini, List.length_cons, List.length_map]
  omega

/-- C9: a message whose stripped text starts with `/reset` clears exactly that
user's stored turns (so the user's history is empty afterwards), makes no
model call, records no turn, sends the confirmation threaded to the message,
and answers 200 `ok=true`. -/
theorem C9_reset_short_circuits (api : GeminiApi) (t1 t2 : Nat) (db : DB) (m : MessageObj)
    (s : String) (hText : msgText m = some s)
    (hReset : pyStartsWith (pyStrip s) "/reset" = true) :
    (webhook api t1 t2 db (mkReq m)).db = clear_history db m.from_id ∧
    (webhook api t1 t2 db (mkReq m)).db.rows.filter
        (fun r => r.user_id == m.from_id) = [] ∧
    (webhook api t1 t2 db (mkReq m)).modelCalls = [] ∧
    (webhook api t1 t2 db (mkReq m)).sent = [⟨m.chat_id, RESET_CONFIRMATION, replyTo m⟩] ∧
    (webhook api t1 t2 db (mkReq m)).response = ⟨200, some true⟩ := by
  have hw : webhook api t1 t2 db (mkReq m) =
      ⟨clear_history db m.from_id, ⟨200, some true⟩,
        [⟨m.chat_id, RESET_CONFIRMATION, replyTo m⟩], []⟩ := by
    simp [webhook, mkReq, Update.truthy, Option.or, hText, hReset]
  refine ⟨by rw [hw], ?_, by rw [hw], by rw [hw], by rw [hw]⟩
  rw [hw]
  simp [clear_history, List.filter_filter]

/-- Witness for C9: user 7, who has one stored turn, sends `"/reset"`. -/
theorem C9_witness :
    (webhook apiOk 1 2 (add_message init_db 7 "user" "x" 0)
        (mkReq ⟨1, 7, some (some "/reset"), some 3⟩)).db =
      clear_history (add_message init_db 7 "user" "x" 0) 7 ∧
    (webhook apiOk 1 2 (add_message init_db 7 "user" "x" 0)
        (mkReq ⟨1, 7, some (some "/reset"), some 3⟩)).db.rows.filter
        (fun r => r.user_id == (7 : Int)) = [] ∧
    (webhook apiOk 1 2 (add_message init_db 7 "user" "x" 0)
        (mkReq ⟨1, 7, some (some "/reset"), some 3⟩)).modelCalls = [] ∧
    (webhook apiOk 1 2 (add_message init_db 7 "user" "x" 0)
        (mkReq ⟨1, 7, some (some "/reset"), some 3⟩)).sent =
      [⟨1, RESET_CONFIRMATION, some 3⟩] ∧
    (webhook apiOk 1 2 (add_message init_db 7 "user" "x" 0)
        (mkReq ⟨1, 7, some (some "/reset"), some 3⟩)).response = ⟨200, some true⟩ :=
  C9_reset_short_circuits apiOk 1 2 (add_message init_db 7 "user" "x" 0)
    ⟨1, 7, some (some "/reset"), some 3⟩ "/reset" rfl rfl

/-- C10: a message object carrying no `text` key is treated as an
empty-string text — the handler stores a user turn with text `""`, calls the
model, stores and sends the reply — while the text-only notice branch fires
exactly when the payload carries an explicit `null` text value, in which case
nothing is stored and no model call happens. -/
theorem C10_missing_text_key_treated_as_empty (api : GeminiApi) (t1 t2 : Nat) (db : DB)
    (cid uid : Int) (mid : Option Int) (tk : Option (Option String)) :
    (tk = none →
      (webhook api t1 t2 db (mkReq ⟨cid, uid, tk, mid⟩)).modelCalls =
        [⟨build_history_for_gemini (add_message db uid "user" "" t1) uid, ""⟩] ∧
      (webhook api t1 t2 db (mkReq ⟨cid, uid, tk, mid⟩)).db =
        add_message (add_message db uid "user" "" t1) uid "assistant"
          (ask_gemini api (add_message db uid "user" "" t1) uid "") t2 ∧
      (webhook api t1 t2 db (mkReq ⟨cid, uid, tk, mid⟩)).sent =
        [⟨cid, ask_gemini api (add_message db uid "user" "" t1) uid "",
          replyTo ⟨cid, uid, tk, mid⟩⟩]) ∧
    (tk = some none →
      (webhook api t1 t2 db (mkReq ⟨cid, uid, tk, mid⟩)).sent =
        [⟨cid, TEXT_ONLY_NOTICE, none⟩] ∧
      (webhook api t1 t2 db (mkReq ⟨cid, uid, tk, mid⟩)).modelCalls = [] ∧
      (webhook api t1 t2 db (mkReq ⟨cid, uid, tk, mid⟩)).db = db) := by
  constructor
  · intro h
    subst h
    exact ⟨rfl, rfl, rfl⟩
  · intro h
    subst h
    exact ⟨rfl, rfl, rfl⟩

/-- Witness for C10 at concrete inputs: a message of user 7 in chat 1 with no
`text` key reaches the model with empty text, and one with `text = null` gets
the notice. -/
theorem C10_witness :
    ((webhook apiOk 0 1 init_db (mkReq ⟨1, 7, none, none⟩)).modelCalls =
        [⟨build_history_for_gemini (add_message init_db 7 "user" "" 0) 7, ""⟩] ∧
      (webhook apiOk 0 1 init_db (mkReq ⟨1, 7, none, none⟩)).db =
        add_message (add_message init_db 7 "user" "" 0) 7 "assistant"
          (ask_gemini apiOk (add_message init_db 7 "user" "" 0) 7 "") 1 ∧
      (webhook apiOk 0 1 init_db (mkReq ⟨1, 7, none, none⟩)).sent =
        [⟨1, ask_gemini apiOk (add_message init_db 7 "user" "" 0) 7 "",
          replyTo ⟨1, 7, none, none⟩⟩]) ∧
    ((webhook apiOk 0 1 init_db (mkReq ⟨1, 7, some none, none⟩)).sent =
        [⟨1, TEXT_ONLY_NOTICE, none⟩] ∧
      (webhook apiOk 0 1 init_db (mkReq ⟨1, 7, some none, none⟩)).modelCalls = [] ∧
      (webhook apiOk 0 1 init_db (mkReq ⟨1, 7, some none, none⟩)).db = init_db) :=
  ⟨(C10_missing_text_key_treated_as_empty apiOk 0 1 init_db 1 7 none none).1 rfl,
   (C10_missing_text_key_treated_as_empty apiOk 0 1 init_db 1 7 none (some none)).2 rfl⟩

end RsmkChatbot
